import Mathlib

/-!
Verification of the quality-gated decision pipeline of the `nba-prono`
spark-runner service (services/spark-runner/app): the validation-rule
engine (`quality/quality_checks.py`), the fallback cascade
(`pipelines/fallback_pipeline.py`), the no-bet guard
(`policy/no_bet_guard.py`) and the retrying persister
(`pipelines/scoring_pipeline.py` + `storage/postgres_writer.py`).

Modelling conventions:
* Python dict payloads (match records, signals) are association lists of
  `String × PyVal`, where `PyVal` is a small model of Python values.
  Key lookup is first-match; the dicts built by the code have no
  duplicate keys.
* Python float rates are modelled as exact rationals `ℚ`.  All the rate
  comparisons exercised by the claims (`0/n`, `1/5`, `4/5` against the
  constants `0.20` and `1 - 0.20`) give the same verdict under IEEE
  doubles as under `ℚ`.
* Code that raises is modelled with `Except String`; the message text of
  a caught exception is a modelling abbreviation of the Python message.
* `datetime` timestamps attached to results, events and audit entries
  are dropped: no claim depends on them.
* Network calls and the database are external collaborators: the
  secondary-source response and the per-attempt persistence outcome are
  oracle parameters, and the store is explicit state.
-/

/-- Model of a Python value as it appears in the record payloads. -/
inductive PyVal where
  | none : PyVal
  | bool (b : Bool) : PyVal
  | int (n : Int) : PyVal
  | float (q : ℚ) : PyVal
  | str (s : String) : PyVal
  | dict (kvs : List (String × PyVal)) : PyVal
  | list (xs : List PyVal) : PyVal

/-- A Python dict payload (match record, signal, ...). -/
abbrev Md := List (String × PyVal)

/-- Key lookup in a dict payload (Python `d[k]` / `k in d`). -/
def pyLookup : Md → String → Option PyVal
  | [], _ => Option.none
  | (k, v) :: rest, key => if k == key then some v else pyLookup rest key

/-- Python truthiness (`if x:`). -/
def pyTruthy : PyVal → Bool
  | .none => false
  | .bool b => b
  | .int n => n != 0
  | .float q => q != 0
  | .str s => !s.isEmpty
  | .dict kvs => !kvs.isEmpty
  | .list xs => !xs.isEmpty

/-- Shallow rendering of a value inside an f-string (`str(v)`); the
rendering of containers is abbreviated — no claim inspects it. -/
def pyValStr : PyVal → String
  | .none => "None"
  | .bool b => cond b "True" "False"
  | .int n => toString n
  | .float q => toString q
  | .str s => s
  | .dict _ => "dict"
  | .list _ => "list"

/-- Python `str.lower()`, modelled character-wise (ASCII lowering, the
only case the team ids exercise). -/
def pyLower (s : String) : String := String.mk (s.data.map Char.toLower)

/-- Rendering of a `details` dict inside an error string. -/
def detailsRepr (kvs : List (String × PyVal)) : String :=
  "\x7b" ++ String.intercalate ", " (kvs.map (fun kv => kv.1 ++ ": " ++ pyValStr kv.2)) ++ "\x7d"

/-! ## quality/quality_checks.py -/

/-- `QualityStatus` enum. -/
inductive QualityStatus where
  | pass : QualityStatus
  | fail : QualityStatus
  | warning : QualityStatus
deriving DecidableEq

/-- `RuleResult` dataclass: result of one rule against one record. -/
structure RuleResult where
  rule_name : String
  passed : Bool
  details : List (String × PyVal) := []
  severity : String := "error"

/-- `QualityResult` dataclass: complete validation result for one match
(the `checked_at` timestamp is dropped). -/
structure QualityResult where
  match_id : PyVal
  status : QualityStatus
  errors : List String := []
  warnings : List String := []
  rule_results : List RuleResult := []

/-- `QualityRule._check_completeness`: every required field must be
present and not `None`. -/
def check_completeness (required_fields : List String) (md : Md) : RuleResult :=
  let missing := required_fields.filter (fun f =>
    match pyLookup md f with
    | Option.none => true
    | some .none => true
    | some _ => false)
  { rule_name := "completeness"
    passed := missing.isEmpty
    details := [("missing_fields", .list (missing.map .str))]
    severity := if !missing.isEmpty then "error" else "info" }

/-- One score-like field inside `QualityRule._check_validity`: present,
non-`None` values must be numbers (`int`/`float`, and Python `bool` is a
subclass of `int`) and non-negative. -/
def scoreFieldIssues (md : Md) (k : String) : List String :=
  match pyLookup md k with
  | Option.none => []
  | some v =>
    match v with
    | .none => []
    | .bool _ => []
    | .int n => if n < 0 then [k ++ ": negative or invalid value"] else []
    | .float q => if q < 0 then [k ++ ": negative or invalid value"] else []
    | _ => [k ++ ": negative or invalid value"]

/-- `QualityRule._check_validity`.  The `scheduled_at` branch of the
source computes `scheduled.replace('Z', '+00:00')` and discards the
result; `str.replace` cannot raise, so the `except` branch that would
append `"scheduled_at: invalid datetime format"` is unreachable and the
field is never flagged. -/
def check_validity (md : Md) : RuleResult :=
  let invalid_fields := scoreFieldIssues md "home_score" ++ scoreFieldIssues md "away_score"
  let _dead := match pyLookup md "scheduled_at" with
    | some (.str s) => if pyTruthy (.str s) then s.replace "Z" "+00:00" else ""
    | _ => ""
  { rule_name := "validity"
    passed := invalid_fields.isEmpty
    details := [("invalid_fields", .list (invalid_fields.map .str))]
    severity := if !invalid_fields.isEmpty then "error" else "info" }

/-- `dict.get("id", "").lower()` on a team dict: raises `AttributeError`
when the stored value is not a string (e.g. `None`). -/
def teamIdLower (kvs : List (String × PyVal)) : Except String String :=
  match (pyLookup kvs "id").getD (.str "") with
  | .str s => .ok (pyLower s)
  | _ => .error "AttributeError: object has no attribute lower"

/-- `QualityRule._check_consistency`: home and away team ids
(case-insensitive) must differ, and both team keys must be present.
The id lookup can raise, so the whole check is `Except`. -/
def check_consistency (md : Md) : Except String RuleResult := do
  let errors₁ ←
    match pyLookup md "home_team", pyLookup md "away_team" with
    | some home, some away =>
      match home, away with
      | .dict hkvs, .dict akvs => do
        let home_id ← teamIdLower hkvs
        let away_id ← teamIdLower akvs
        pure (if !home_id.isEmpty && !away_id.isEmpty && home_id == away_id then
          ["same_team: home and away teams are identical"] else [])
      | _, _ => pure []
    | _, _ => pure []
  let errors := errors₁ ++
    (if (pyLookup md "home_team").isNone || (pyLookup md "away_team").isNone then
      ["missing_team: need both home and away teams"] else [])
  pure { rule_name := "consistency"
         passed := errors.isEmpty
         details := [("errors", .list (errors.map .str))]
         severity := if !errors.isEmpty then "error" else "info" }

/-- One entry of `QualityChecker.rules`: a name and a fallible check,
mirroring `rule.name` / `rule.check` (the timeliness rule, which reads
the wall clock, is not needed by any claim and is representable as just
another entry of this type). -/
structure PyRule where
  name : String
  check : Md → Except String RuleResult

/-- Fold step of the rule loop in `QualityChecker.validate_match`:
a returned result is appended to `rule_results` and, when it failed,
formatted into `errors` or `warnings` by severity; a raised exception
becomes an error string `<rule>_error: <msg>`. -/
def vmStep (md : Md) (acc : List String × List String × List RuleResult) (rule : PyRule) :
    List String × List String × List RuleResult :=
  let (errors, warnings, rrs) := acc
  match rule.check md with
  | .ok result =>
    let rrs' := rrs ++ [result]
    if !result.passed then
      if result.severity == "error" then
        (errors ++ [result.rule_name ++ ": " ++ detailsRepr result.details], warnings, rrs')
      else
        (errors, warnings ++ [result.rule_name ++ ": " ++ detailsRepr result.details], rrs')
    else (errors, warnings, rrs')
  | .error e => (errors ++ [rule.name ++ "_error: " ++ e], warnings, rrs)

/-- `QualityChecker.validate_match`: run every rule, never aborting,
then derive the global status (`fail` if any error, else `warning` if
any warning, else `pass`). -/
def validate_match (rules : List PyRule) (md : Md) : QualityResult :=
  let match_id := (pyLookup md "external_id").getD (.str "unknown")
  let (errors, warnings, rule_results) := rules.foldl (vmStep md) ([], [], [])
  let status :=
    if !errors.isEmpty then QualityStatus.fail
    else if !warnings.isEmpty then QualityStatus.warning
    else QualityStatus.pass
  { match_id := match_id, status := status, errors := errors,
    warnings := warnings, rule_results := rule_results }

/-- `QualityChecker.validate_batch`: one result per input match, in
order. -/
def validate_batch (rules : List PyRule) (ms : List Md) : List QualityResult :=
  ms.map (validate_match rules)

/-- `QualityChecker.CRITICAL_FAILURE_THRESHOLD` (0.20). -/
def QC_CRITICAL_FAILURE_THRESHOLD : ℚ := 1/5

/-- Python `round(x, 2)` on the pass rate; Python rounds ties to even,
but no claim exercises a tie, so round-half-up is an adequate model. -/
def roundHundredths (q : ℚ) : ℚ := (round (q * 100) : ℚ) / 100

/-- The dict returned by `QualityChecker.get_quality_summary`, and also
the dict consumed by `NoBetGuard`: `Option` fields model key presence
(`none` = key absent, so `d.get(k, default)` is `Option.getD`). -/
structure QualitySummaryDict where
  total_matches : Option Nat := Option.none
  passed : Option Nat := Option.none
  failed : Option Nat := Option.none
  pass_rate : Option ℚ := Option.none
  critical_failure : Option Bool := Option.none
  threshold : Option ℚ := Option.none

/-- `QualityChecker.get_quality_summary`: batch aggregate; the empty
batch short-circuits (no division), otherwise
`critical_failure = pass_rate < 1 - threshold` on the unrounded rate
(the reported `pass_rate` is rounded to 2 decimals, with no
`threshold` key in the empty case, exactly as in the source). -/
def get_quality_summary (results : List QualityResult) : QualitySummaryDict :=
  let total := results.length
  if total = 0 then
    { total_matches := some 0, passed := some 0, failed := some 0,
      pass_rate := some 0, critical_failure := some false }
  else
    let passed := (results.filter (fun r => r.status == QualityStatus.pass)).length
    let failed := total - passed
    let pass_rate : ℚ := (passed : ℚ) / (total : ℚ)
    let critical_failure : Bool := pass_rate < 1 - QC_CRITICAL_FAILURE_THRESHOLD
    { total_matches := some total, passed := some passed, failed := some failed,
      pass_rate := some (roundHundredths pass_rate),
      critical_failure := some critical_failure,
      threshold := some QC_CRITICAL_FAILURE_THRESHOLD }


/-! ## pipelines/fallback_pipeline.py -/

/-- `FallbackStatus` enum. -/
inductive FallbackStatus where
  | pending : FallbackStatus
  | triggered : FallbackStatus
  | success : FallbackStatus
  | failed : FallbackStatus
deriving DecidableEq

/-- Outcome of the secondary-source network call, after JSON decoding
and TheSportsDB conversion (both abstracted into the oracle: the pipeline
only branches on the failure kind or on the adapted match list). -/
inductive FetchOutcome where
  | ok (ms : List Md) : FetchOutcome
  | timeout (msg : String) : FetchOutcome
  | httpError (status_code : String) : FetchOutcome
  | requestError (msg : String) : FetchOutcome
  | otherError (msg : String) : FetchOutcome

/-- One entry of `FallbackPipeline.fallback_events` (timestamps and
trace ids dropped). -/
inductive FallbackEvent where
  | triggered (reason : String) (total : Nat) (failed : Nat) (fail_rate : ℚ) : FallbackEvent
  | failed (reason : String) (details : Option String) (cascading_failure : Bool) : FallbackEvent
  | success (matches_recovered : Nat) : FallbackEvent

/-- Mutable state of a `FallbackPipeline` instance. -/
structure FallbackState where
  status : FallbackStatus := .pending
  error_cause : Option String := Option.none
  error_details : Option String := Option.none
  was_triggered : Bool := false
  cascading_failure : Bool := false
  fallback_events : List FallbackEvent := []

/-- `FallbackPipeline.CRITICAL_FAILURE_THRESHOLD`: the pipeline keeps
its own copy of the 0.20 constant. -/
def FB_CRITICAL_FAILURE_THRESHOLD : ℚ := 1/5

/-- `FallbackPipeline.fetch_from_fallback`, with the network response
supplied by the `net` oracle: sets `status` and the error cause/details,
returns the matches, or `none` for every failure (including an empty
adapted list). -/
def fetch_from_fallback (st : FallbackState) (net : FetchOutcome) :
    FallbackState × Option (List Md) :=
  let st := { st with status := .triggered }
  match net with
  | .ok ms =>
    if !ms.isEmpty then
      ({ st with status := .success }, some ms)
    else
      ({ st with
          status := .failed
          error_cause := some "FALLBACK_EMPTY_RESPONSE"
          error_details := some "Fallback API returned empty data" }, Option.none)
  | .timeout msg =>
    ({ st with
        status := .failed
        error_cause := some "FALLBACK_TIMEOUT"
        error_details := some ("Fallback API timeout: " ++ msg) }, Option.none)
  | .httpError code =>
    ({ st with
        status := .failed
        error_cause := some "FALLBACK_HTTP_ERROR"
        error_details := some ("HTTP " ++ code) }, Option.none)
  | .requestError msg =>
    ({ st with
        status := .failed
        error_cause := some "FALLBACK_UNAVAILABLE"
        error_details := some msg }, Option.none)
  | .otherError msg =>
    ({ st with
        status := .failed
        error_cause := some "FALLBACK_ERROR"
        error_details := some msg }, Option.none)

/-- `FallbackPipeline.trigger_fallback_if_needed`.  The returned `Bool`
is instrumentation recording whether `fetch_from_fallback` was called
on this invocation.  Note the trigger recomputes a FAIL rate from the
raw results and compares it with the pipeline's own threshold copy; it
does not read `get_quality_summary`'s `critical_failure` boolean. -/
def trigger_fallback_if_needed (st : FallbackState) (net : FetchOutcome)
    (quality_results : List QualityResult) :
    FallbackState × Option (List Md) × Bool :=
  if quality_results.isEmpty then (st, Option.none, false)
  else
    let fail_count := (quality_results.filter (fun r => r.status == QualityStatus.fail)).length
    let total_count := quality_results.length
    let fail_rate : ℚ := (fail_count : ℚ) / (total_count : ℚ)
    if fail_rate < FB_CRITICAL_FAILURE_THRESHOLD then
      ({ st with was_triggered := false }, Option.none, false)
    else
      let st := { st with
        was_triggered := true
        fallback_events := st.fallback_events ++
          [.triggered "Quality failure rate exceeds threshold" total_count fail_count
            (roundHundredths fail_rate)] }
      let (st, fallback_data) := fetch_from_fallback st net
      match fallback_data with
      | Option.none =>
        ({ st with
            cascading_failure := true
            fallback_events := st.fallback_events ++
              [.failed (st.error_cause.getD "Unknown") st.error_details true] },
         Option.none, true)
      | some data =>
        ({ st with fallback_events := st.fallback_events ++ [.success data.length] },
         some data, true)

/-- The dict built by `FallbackPipeline.get_fallback_report`
(timestamps and trace id dropped). -/
structure FallbackReport where
  was_triggered : Bool
  status : FallbackStatus
  cascading_failure : Bool
  error_cause : Option String
  error_details : Option String
  events : List FallbackEvent

/-- `FallbackPipeline.get_fallback_report`. -/
def get_fallback_report (st : FallbackState) : FallbackReport :=
  { was_triggered := st.was_triggered
    status := st.status
    cascading_failure := st.cascading_failure
    error_cause := st.error_cause
    error_details := st.error_details
    events := st.fallback_events }

/-! ## policy/no_bet_guard.py -/

/-- `DegradedMode` enum. -/
inductive DegradedMode where
  | normal : DegradedMode
  | degraded_fallback : DegradedMode
  | degraded_no_bet : DegradedMode
deriving DecidableEq

/-- `DegradedMode.value` strings. -/
def DegradedMode.value : DegradedMode → String
  | .normal => "normal"
  | .degraded_fallback => "degraded-fallback"
  | .degraded_no_bet => "degraded-no-bet"

/-- The metadata dict of a `GuardDecision`; `Option` fields model key
presence, since each decision branch populates a different key set. -/
structure GuardMetadata where
  quality_pass_rate : Option ℚ := Option.none
  critical_failure : Option Bool := Option.none
  fallback_used : Option Bool := Option.none
  fallback_matches : Option Nat := Option.none
  fallback_failed : Option Bool := Option.none
  blocking_reason : Option String := Option.none
  forced : Option Bool := Option.none
  reset : Option Bool := Option.none

/-- `GuardDecision` dataclass (timestamp dropped). -/
structure GuardDecision where
  mode : DegradedMode
  allow_betting : Bool
  reason : String
  metadata : GuardMetadata

/-- `dict.get(k)` with no default: an absent key yields Python `None`. -/
def optQ : Option ℚ → PyVal
  | some q => .float q
  | Option.none => .none

/-- `dict.get(k)` with no default, boolean value. -/
def optB : Option Bool → PyVal
  | some b => .bool b
  | Option.none => .none

/-- `dict.get(k)` with no default, integer value. -/
def optN : Option Nat → PyVal
  | some n => .int n
  | Option.none => .none

/-- The audit-entry dict built by `NoBetGuard._log_decision`: exactly
the keys `timestamp` (dropped), `mode`, `allow_betting`, `reason`,
`quality_summary` (the four `.get` projections of the summary dict) and
`trace_id` (dropped).  The decision's `metadata` dict is not among the
keys. -/
def audit_entry (decision : GuardDecision) (qs : QualitySummaryDict) : Md :=
  [("mode", .str decision.mode.value),
   ("allow_betting", .bool decision.allow_betting),
   ("reason", .str decision.reason),
   ("quality_summary", .dict
     [("pass_rate", optQ qs.pass_rate),
      ("critical_failure", optB qs.critical_failure),
      ("total_matches", optN qs.total_matches),
      ("failed", optN qs.failed)])]

/-- Mutable state of a `NoBetGuard` instance (trace id dropped). -/
structure NoBetGuard where
  is_degraded : Bool := false
  current_mode : DegradedMode := .normal
  audit_trail : List Md := []

/-- `NoBetGuard._log_decision`: append one audit entry built from the
decision and the `.get` projections of the quality-summary dict. -/
def log_decision (g : NoBetGuard) (decision : GuardDecision)
    (quality_summary : QualitySummaryDict) : NoBetGuard :=
  { g with audit_trail := g.audit_trail ++ [audit_entry decision quality_summary] }

/-- `NoBetGuard.evaluate_run_status`: the decision tree over
`critical_failure` (dict default `False`) and the fallback result, then
the internal mode update and the audit append.  The numeric
interpolation inside the reason strings is dropped. -/
def evaluate_run_status (g : NoBetGuard) (quality_summary : QualitySummaryDict)
    (fallback_result : Option (List Md)) : GuardDecision × NoBetGuard :=
  let critical_failure := quality_summary.critical_failure.getD false
  let pass_rate := quality_summary.pass_rate.getD 1
  let decision :=
    if !critical_failure then
      ({ mode := DegradedMode.normal
         allow_betting := true
         reason := "Qualite des donnees acceptable"
         metadata := { quality_pass_rate := some pass_rate
                       critical_failure := some false } } : GuardDecision)
    else
      match fallback_result with
      | some fr =>
        { mode := DegradedMode.degraded_fallback
          allow_betting := true
          reason := "Qualite critique mais fallback reussi - utilisation donnees secondaires avec vigilance"
          metadata := { quality_pass_rate := some pass_rate
                        critical_failure := some true
                        fallback_used := some true
                        fallback_matches := some fr.length } }
      | Option.none =>
        { mode := DegradedMode.degraded_no_bet
          allow_betting := false
          reason := "QUALITE INSUFFISANTE ET FALLBACK EN ECHEC - Systeme en mode no-bet pour protection. Donnees corrompues ou incompletes detectees. Requiert investigation operateur."
          metadata := { quality_pass_rate := some pass_rate
                        critical_failure := some true
                        fallback_used := some false
                        fallback_failed := some true
                        blocking_reason := some "cascading_failure" } }
  let g := { g with
    current_mode := decision.mode
    is_degraded := decision.mode != DegradedMode.normal }
  let g := log_decision g decision quality_summary
  (decision, g)

/-- `NoBetGuard.force_degraded_mode`: administrative override.  The
`_log_decision` call receives the dict `{"forced": True}`, whose four
`.get` projections are all absent, i.e. the all-`none` summary dict. -/
def force_degraded_mode (g : NoBetGuard) (reason : String) : GuardDecision × NoBetGuard :=
  let decision : GuardDecision :=
    { mode := DegradedMode.degraded_no_bet
      allow_betting := false
      reason := "FORCAGE MANUEL: " ++ reason
      metadata := { forced := some true } }
  let g := { g with current_mode := decision.mode, is_degraded := true }
  let g := log_decision g decision {}
  (decision, g)

/-- `NoBetGuard.reset_to_normal`: administrative override back to
normal; `_log_decision` receives the dict `{"reset": True}`. -/
def reset_to_normal (g : NoBetGuard) (reason : String) : GuardDecision × NoBetGuard :=
  let decision : GuardDecision :=
    { mode := DegradedMode.normal
      allow_betting := true
      reason := "RETOUR NORMAL: " ++ reason
      metadata := { reset := some true } }
  let g := { g with current_mode := decision.mode, is_degraded := false }
  let g := log_decision g decision {}
  (decision, g)

/-! ## storage/postgres_writer.py and pipelines/scoring_pipeline.py -/

/-- Visible rows of the signals table, keyed by the entity id
`f"{run_id}_{match_id}"`. -/
abbrev Store := List (String × Md)

/-- `session.merge` upsert semantics: overwrite the row with the same
key, or insert a new row. -/
def upsert (rows : Store) (key : String) (v : Md) : Store :=
  if rows.any (fun kv => kv.1 == key) then
    rows.map (fun kv => if kv.1 == key then (key, v) else kv)
  else rows ++ [(key, v)]

/-- The entity key built by `PostgresWriter.save_signals`
(`f"{run_id}_{signal_data.get('match_id')}"`). -/
def signalKey (run_id : String) (signal : Md) : String :=
  run_id ++ "_" ++ pyValStr ((pyLookup signal "match_id").getD .none)

/-- `PostgresWriter.save_signals`: one transaction merging every signal
of the batch; the committed store after a successful attempt. -/
def save_signals (store : Store) (run_id : String) (signals : List Md) : Store :=
  signals.foldl (fun s sig => upsert s (signalKey run_id sig) sig) store

/-- Result of `ScoringPipeline._persist_signals_with_retry`, with the
attempt count and the visible store made explicit. -/
structure PersistOutcome where
  success : Bool
  attempts : Nat
  store : Store

/-- The retry loop of `ScoringPipeline._persist_signals_with_retry`:
`oracle n` tells whether the n-th attempt's transaction commits (the
database is the external collaborator).  A failed attempt is rolled
back by `save_signals`'s enclosing transaction, so it leaves the store
unchanged; a successful attempt commits the whole batch and returns
immediately.  Arguments of the recursion: remaining attempts, attempts
already made, current visible store. -/
def persistAttempts (oracle : Nat → Bool) (run_id : String) (signals : List Md) :
    Nat → Nat → Store → PersistOutcome
  | 0, made, store => { success := false, attempts := made, store := store }
  | n + 1, made, store =>
    if oracle (made + 1) then
      { success := true, attempts := made + 1, store := save_signals store run_id signals }
    else
      persistAttempts oracle run_id signals n (made + 1) store

/-- `ScoringPipeline._persist_signals_with_retry`: up to `max_retries`
attempts (`for attempt in range(1, max_retries + 1)`), returning `True`
on the first success and `False` when all attempts failed.  The
inter-attempt backoff sleep does not affect the outcome and is
dropped. -/
def persist_signals_with_retry (max_retries : Nat) (oracle : Nat → Bool)
    (run_id : String) (signals : List Md) (store : Store) : PersistOutcome :=
  persistAttempts oracle run_id signals max_retries 0 store

/-! ## Derived views used by the theorems -/

/-- Error strings contributed by one rule in `validate_match`'s loop. -/
def errOf (md : Md) (r : PyRule) : List String :=
  match r.check md with
  | .ok res =>
    if !res.passed && res.severity == "error" then
      [res.rule_name ++ ": " ++ detailsRepr res.details]
    else []
  | .error e => [r.name ++ "_error: " ++ e]

/-- Warning strings contributed by one rule in `validate_match`'s loop. -/
def warnOf (md : Md) (r : PyRule) : List String :=
  match r.check md with
  | .ok res =>
    if !res.passed && !(res.severity == "error") then
      [res.rule_name ++ ": " ++ detailsRepr res.details]
    else []
  | .error _ => []

/-- The `RuleResult` contributed by one rule (none when it raised). -/
def okOf (md : Md) (r : PyRule) : Option RuleResult :=
  (r.check md).toOption

/-- Number of `pass`-status results in a batch (the count used by
`get_quality_summary`). -/
def passCount (rs : List QualityResult) : Nat :=
  (rs.filter (fun r => r.status == QualityStatus.pass)).length

/-- Number of `fail`-status results in a batch (the count used by
`trigger_fallback_if_needed`). -/
def failCount (rs : List QualityResult) : Nat :=
  (rs.filter (fun r => r.status == QualityStatus.fail)).length

/-! ## Concrete sample data for counterexamples and witnesses -/

/-- A passing validation result. -/
def qrPass : QualityResult := { match_id := .str "m", status := .pass }

/-- A failing validation result. -/
def qrFail : QualityResult := { match_id := .str "m", status := .fail }

/-- A warning-status validation result. -/
def qrWarn : QualityResult := { match_id := .str "m", status := .warning }

/-- Boundary batch: 4 passes and 1 failure, so `passRate = 0.8` exactly
and `failRate = 0.2` exactly. -/
def boundaryBatch : List QualityResult := [qrPass, qrPass, qrPass, qrPass, qrFail]

/-- A batch consisting of one warning-status record:
`passRate = 0`, `failRate = 0`. -/
def warnBatch : List QualityResult := [qrWarn]

/-- The required-field list configured in
`QualityChecker._setup_default_rules`. -/
def defaultRequiredFields : List String :=
  ["external_id", "home_team", "away_team", "scheduled_at", "season"]

/-- The default rules relevant to the claims, as (name, check) pairs
(the time-dependent timeliness rule is omitted; the claims quantify
over arbitrary rule lists). -/
def sampleRules : List PyRule :=
  [{ name := "completeness", check := fun md => .ok (check_completeness defaultRequiredFields md) },
   { name := "validity", check := fun md => .ok (check_validity md) },
   { name := "consistency", check := check_consistency }]

/-- A fully valid match record. -/
def mdGood : Md :=
  [("external_id", .str "nba-001"),
   ("home_team", .dict [("id", .str "lal"), ("name", .str "Lakers"), ("city", .str "LA")]),
   ("away_team", .dict [("id", .str "bos"), ("name", .str "Celtics"), ("city", .str "Boston")]),
   ("scheduled_at", .str "2024-01-15T20:00:00Z"),
   ("season", .str "2023-24")]

/-- A record whose `home_team.id` is `None`, which makes
`_check_consistency` raise (`None.lower()`). -/
def mdExc : Md :=
  [("external_id", .str "nba-002"),
   ("home_team", .dict [("id", PyVal.none)]),
   ("away_team", .dict [("id", .str "bos")])]

/-- Rule list whose first rule raises on `mdExc` and whose second rule
still runs. -/
def rulesExc : List PyRule :=
  [{ name := "consistency", check := check_consistency },
   { name := "completeness", check := fun md => .ok (check_completeness ["external_id"] md) }]

/-- A record whose scheduled-time field is present but not parseable as
a date-time. -/
def mdBadDate : Md := [("scheduled_at", .str "not-a-datetime")]

/-- A record with every required field present whose `home_team.id` is
`None`: completeness and validity pass, but the consistency rule
raises (`None.lower()`). -/
def mdBadId : Md :=
  [("external_id", .str "nba-003"),
   ("home_team", .dict [("id", PyVal.none), ("name", .str "Lakers"), ("city", .str "LA")]),
   ("away_team", .dict [("id", .str "bos"), ("name", .str "Celtics"), ("city", .str "Boston")]),
   ("scheduled_at", .str "2024-01-15T20:00:00Z"),
   ("season", .str "2023-24")]

/-! ## Theorems -/

/-- Claim C1: for every quality summary and fallback outcome, `evaluate`
returns mode `normal` with `allowPublishing = true` when
`criticalFailure` is false; mode `degraded-fallback` with
`allowPublishing = true` when `criticalFailure` is true and the
fallback outcome is non-nil; and mode `degraded-no-bet` with
`allowPublishing = false` when `criticalFailure` is true and the
fallback outcome is nil. -/
theorem c1_evaluate_decision_tree (g : NoBetGuard) (qs : QualitySummaryDict)
    (fb : Option (List Md)) :
    (qs.critical_failure.getD false = false →
      ((evaluate_run_status g qs fb).1.mode = DegradedMode.normal ∧
       (evaluate_run_status g qs fb).1.allow_betting = true)) ∧
    (qs.critical_failure.getD false = true → fb ≠ Option.none →
      ((evaluate_run_status g qs fb).1.mode = DegradedMode.degraded_fallback ∧
       (evaluate_run_status g qs fb).1.allow_betting = true)) ∧
    (qs.critical_failure.getD false = true → fb = Option.none →
      ((evaluate_run_status g qs fb).1.mode = DegradedMode.degraded_no_bet ∧
       (evaluate_run_status g qs fb).1.allow_betting = false)) := by
  cases hcf : qs.critical_failure.getD false <;> cases fb <;>
    simp [evaluate_run_status, hcf]

/-- Witness for C1: concrete instantiation — critical failure with a
successful fallback gives `degraded-fallback` and allows publishing. -/
theorem c1_evaluate_decision_tree_witness :
    ((evaluate_run_status {} { critical_failure := some true } (some [mdGood])).1.mode =
      DegradedMode.degraded_fallback ∧
     (evaluate_run_status {} { critical_failure := some true } (some [mdGood])).1.allow_betting = true) :=
  (c1_evaluate_decision_tree {} { critical_failure := some true } (some [mdGood])).2.1
    rfl (by simp)

/-- Claim C10: a quality-summary dict lacking the `critical_failure`
key is treated as non-critical: mode `normal`, `allow_betting = true`,
whatever the stored pass rate and the fallback outcome, with the
decision metadata's pass rate defaulting to 1.0 when the `pass_rate`
key is also absent. -/
theorem c10_missing_critical_key (g : NoBetGuard) (qs : QualitySummaryDict)
    (fb : Option (List Md)) (h : qs.critical_failure = Option.none) :
    (evaluate_run_status g qs fb).1.mode = DegradedMode.normal ∧
    (evaluate_run_status g qs fb).1.allow_betting = true ∧
    (evaluate_run_status g qs fb).1.metadata.quality_pass_rate =
      some (qs.pass_rate.getD 1) := by
  simp [evaluate_run_status, h]

/-- Witness for C10: the empty dict, a zero stored pass rate, and a nil
fallback still give mode normal with `allow_betting = true`; for the
empty dict the metadata pass rate is the default 1. -/
theorem c10_missing_critical_key_witness :
    ((evaluate_run_status {} {} Option.none).1.mode = DegradedMode.normal ∧
     (evaluate_run_status {} {} Option.none).1.allow_betting = true ∧
     (evaluate_run_status {} {} Option.none).1.metadata.quality_pass_rate = some 1) ∧
    ((evaluate_run_status {} { pass_rate := some 0 } Option.none).1.mode = DegradedMode.normal ∧
     (evaluate_run_status {} { pass_rate := some 0 } Option.none).1.allow_betting = true) :=
  ⟨c10_missing_critical_key {} {} Option.none rfl,
   (c10_missing_critical_key {} { pass_rate := some 0 } Option.none rfl).1,
   (c10_missing_critical_key {} { pass_rate := some 0 } Option.none rfl).2.1⟩

/-- Claim C8: the empty batch yields `total = 0`, `passed = 0`,
`failed = 0`, `pass_rate = 0.0`, `critical_failure = false` through the
early-return branch (no division), and the fallback trigger on an empty
result list returns `None` immediately, with no fetch and the pipeline
state untouched. -/
theorem c8_empty_batch :
    get_quality_summary [] =
      { total_matches := some 0, passed := some 0, failed := some 0,
        pass_rate := some 0, critical_failure := some false,
        threshold := Option.none } ∧
    ∀ (st : FallbackState) (net : FetchOutcome),
      trigger_fallback_if_needed st net [] = (st, Option.none, false) :=
  ⟨rfl, fun _ _ => rfl⟩

/-- Claim C9 counterexample: after a forced transition the single audit
entry carries no `forced` (nor `metadata`) key at all — the override is
recorded only through the reason string, while `forced=true` lives on
the returned decision's metadata, which `_log_decision` does not copy
into the trail. -/
theorem c9_counterexample :
    (force_degraded_mode {} "maintenance").2.audit_trail.length = 1 ∧
    pyLookup ((force_degraded_mode {} "maintenance").2.audit_trail.headD []) "forced" =
      Option.none ∧
    pyLookup ((force_degraded_mode {} "maintenance").2.audit_trail.headD []) "metadata" =
      Option.none ∧
    pyLookup ((force_degraded_mode {} "maintenance").2.audit_trail.headD []) "reason" =
      some (.str "FORCAGE MANUEL: maintenance") ∧
    (reset_to_normal {} "resolved").2.audit_trail.length = 1 ∧
    pyLookup ((reset_to_normal {} "resolved").2.audit_trail.headD []) "reset" =
      Option.none :=
  ⟨rfl, rfl, rfl, rfl, rfl, rfl⟩

/-- Claim C9 (amended): every invocation of `evaluate_run_status`,
`force_degraded_mode` and `reset_to_normal` appends exactly one entry
to the audit trail, preserving all existing entries and their order;
the `forced=true` / `reset=true` markers are carried on the returned
decision's metadata (not on the audit entry, whose reason string is
what records the override). -/
theorem c9_audit_append :
    (∀ (g : NoBetGuard) (qs : QualitySummaryDict) (fb : Option (List Md)),
      (evaluate_run_status g qs fb).2.audit_trail =
        g.audit_trail ++ [audit_entry (evaluate_run_status g qs fb).1 qs]) ∧
    (∀ (g : NoBetGuard) (r : String),
      (force_degraded_mode g r).2.audit_trail =
        g.audit_trail ++ [audit_entry (force_degraded_mode g r).1 {}] ∧
      (force_degraded_mode g r).1.metadata.forced = some true) ∧
    (∀ (g : NoBetGuard) (r : String),
      (reset_to_normal g r).2.audit_trail =
        g.audit_trail ++ [audit_entry (reset_to_normal g r).1 {}] ∧
      (reset_to_normal g r).1.metadata.reset = some true) := by
  refine ⟨fun g qs fb => ?_, fun g r => ⟨rfl, rfl⟩, fun g r => ⟨rfl, rfl⟩⟩
  cases hcf : qs.critical_failure.getD false <;> cases fb <;>
    simp [evaluate_run_status, log_decision, hcf]

/-- If every attempt in the window fails, the retry loop exhausts all
remaining attempts and leaves the store untouched. -/
theorem persistAttempts_all_fail (oracle : Nat → Bool) (rid : String)
    (sigs : List Md) (n : Nat) :
    ∀ (made : Nat) (store : Store),
      (∀ i, made < i → i ≤ made + n → oracle i = false) →
      persistAttempts oracle rid sigs n made store =
        { success := false, attempts := made + n, store := store } := by
  induction n with
  | zero => intro made store _; simp [persistAttempts]
  | succ n ih =>
    intro made store h
    have h1 : oracle (made + 1) = false := h _ (by omega) (by omega)
    have ih' := ih (made + 1) store (fun i hi1 hi2 => h i (by omega) (by omega))
    have harith : made + 1 + n = made + (n + 1) := by omega
    simp [persistAttempts, h1, ih', harith]

/-- The first successful attempt commits the whole batch and
short-circuits the remaining retries: the loop stops at exactly that
attempt. -/
theorem persistAttempts_first_success (oracle : Nat → Bool) (rid : String)
    (sigs : List Md) (n : Nat) :
    ∀ (made j : Nat) (store : Store),
      made < j → j ≤ made + n → oracle j = true →
      (∀ i, made < i → i < j → oracle i = false) →
      persistAttempts oracle rid sigs n made store =
        { success := true, attempts := j, store := save_signals store rid sigs } := by
  induction n with
  | zero => intro made j store h1 h2 _ _; exfalso; omega
  | succ n ih =>
    intro made j store h1 h2 hj h
    by_cases hcase : j = made + 1
    · subst hcase
      simp [persistAttempts, hj]
    · have h1' : oracle (made + 1) = false := h _ (by omega) (by omega)
      have ih' := ih (made + 1) j store (by omega) (by omega) hj
        (fun i hi1 hi2 => h i (by omega) hi2)
      simp [persistAttempts, h1', ih']

/-- Claim C4: with `maxRetries = N`, if the first `N − 1` attempts fail
and the `N`-th succeeds, the persister reports success after exactly
`N` attempts and the whole batch is committed; any first successful
attempt `j` short-circuits the remaining retries; and if all `N`
attempts fail, it reports failure after `N` attempts with the store
unchanged — no item of the batch becomes visible, each attempt being
one all-or-nothing transaction. -/
theorem c4_retry_persistence (N : Nat) (oracle : Nat → Bool) (run_id : String)
    (signals : List Md) (store : Store) :
    (1 ≤ N → (∀ i, 1 ≤ i → i < N → oracle i = false) → oracle N = true →
      persist_signals_with_retry N oracle run_id signals store =
        { success := true, attempts := N,
          store := save_signals store run_id signals }) ∧
    (∀ j, 1 ≤ j → j ≤ N → oracle j = true →
      (∀ i, 1 ≤ i → i < j → oracle i = false) →
      persist_signals_with_retry N oracle run_id signals store =
        { success := true, attempts := j,
          store := save_signals store run_id signals }) ∧
    ((∀ i, 1 ≤ i → i ≤ N → oracle i = false) →
      persist_signals_with_retry N oracle run_id signals store =
        { success := false, attempts := N, store := store }) := by
  refine ⟨fun hN hfail hsucc => ?_, fun j hj1 hj2 hsucc hfail => ?_, fun hfail => ?_⟩
  · exact persistAttempts_first_success oracle run_id signals N 0 N store
      (by omega) (by omega) hsucc (fun i hi1 hi2 => hfail i (by omega) hi2)
  · exact persistAttempts_first_success oracle run_id signals N 0 j store
      (by omega) (by omega) hsucc (fun i hi1 hi2 => hfail i (by omega) hi2)
  · have := persistAttempts_all_fail oracle run_id signals N 0 store
      (fun i hi1 hi2 => hfail i (by omega) (by omega))
    simpa [persist_signals_with_retry] using this

/-- Witness for C4: `maxRetries = 3` with attempts 1 and 2 failing and
attempt 3 succeeding gives success after exactly 3 attempts and commits
the signal; three consecutive failures give failure with an empty
store. -/
theorem c4_retry_persistence_witness :
    persist_signals_with_retry 3 (fun i => i == 3) "run-1"
        [[("match_id", .str "m1")]] [] =
      { success := true, attempts := 3,
        store := save_signals [] "run-1" [[("match_id", .str "m1")]] } ∧
    persist_signals_with_retry 3 (fun _ => false) "run-1"
        [[("match_id", .str "m1")]] [] =
      { success := false, attempts := 3, store := [] } :=
  ⟨(c4_retry_persistence 3 (fun i => i == 3) "run-1" [[("match_id", .str "m1")]] []).1
      (by omega) (fun i h1 h2 => by interval_cases i <;> rfl) rfl,
   (c4_retry_persistence 3 (fun _ => false) "run-1" [[("match_id", .str "m1")]] []).2.2
      (fun i _ _ => rfl)⟩

/-- The fallback trigger's rational test `failCount/total < 0.20` as a
counting statement. -/
theorem fail_rate_lt_iff (a b : Nat) (hb : 0 < b) :
    ((a : ℚ) / (b : ℚ) < 1 / 5) ↔ 5 * a < b := by
  have hb' : (0 : ℚ) < (b : ℚ) := by exact_mod_cast hb
  rw [div_lt_div_iff₀ hb' (by norm_num : (0 : ℚ) < 5), one_mul]
  have hcast : ((5 * a : Nat) : ℚ) = (a : ℚ) * 5 := by push_cast; ring
  rw [← hcast]
  exact_mod_cast Iff.rfl

/-- The quality summary's rational test `passCount/total < 1 − 0.20` as
a counting statement. -/
theorem pass_rate_lt_iff (p t : Nat) (ht : 0 < t) :
    ((p : ℚ) / (t : ℚ) < 1 - 1 / 5) ↔ 5 * p < 4 * t := by
  have ht' : (0 : ℚ) < (t : ℚ) := by exact_mod_cast ht
  rw [show (1 - 1 / 5 : ℚ) = 4 / 5 by norm_num,
    div_lt_div_iff₀ ht' (by norm_num : (0 : ℚ) < 5)]
  have h1 : ((5 * p : Nat) : ℚ) = (p : ℚ) * 5 := by push_cast; ring
  have h2 : ((4 * t : Nat) : ℚ) = 4 * (t : ℚ) := by push_cast; ring
  rw [← h1, ← h2]
  exact_mod_cast Iff.rfl

/-- Claim C2 counterexample: the boundary batch of 4 passes and 1
failure has `passRate = 0.8 ≥ 1 − threshold` and
`criticalFailure = false`, yet the cascade performs the secondary
fetch, because `trigger_fallback_if_needed` independently recomputes a
fail rate and fires on `failRate ≥ 0.20` (here exactly 0.20). -/
theorem c2_counterexample :
    (4 / 5 : ℚ) ≥ 1 - QC_CRITICAL_FAILURE_THRESHOLD ∧
    passCount boundaryBatch = 4 ∧ failCount boundaryBatch = 1 ∧
    boundaryBatch.length = 5 ∧
    (get_quality_summary boundaryBatch).critical_failure = some false ∧
    (trigger_fallback_if_needed {} (.ok [mdGood]) boundaryBatch).2.2 = true := by
  refine ⟨?_, by decide, by decide, by decide, ?_, ?_⟩
  · norm_num [QC_CRITICAL_FAILURE_THRESHOLD]
  · simp [get_quality_summary, boundaryBatch, qrPass, qrFail,
      QC_CRITICAL_FAILURE_THRESHOLD]
    norm_num
  · simp [trigger_fallback_if_needed, boundaryBatch, qrPass, qrFail,
      FB_CRITICAL_FAILURE_THRESHOLD, fetch_from_fallback, mdGood]

/-- Claim C2 (amended): the cascade's trigger condition is an
independently recomputed FAIL-rate test, not the summary's boolean —
the secondary fetch is performed exactly when the batch is nonempty and
`failCount/total ≥ 0.20`, while `criticalFailure` is true exactly when
the batch is nonempty and `passCount/total < 0.80`.  The two agree on
warning-free batches off the boundary, but the fetch fires at
`failRate = 0.20` exactly even though `criticalFailure` is false, and a
batch of warning-status records has `criticalFailure = true` with no
fetch. -/
theorem c2_trigger_vs_summary (results : List QualityResult) (st : FallbackState)
    (net : FetchOutcome) :
    ((trigger_fallback_if_needed st net results).2.2 = true ↔
      results ≠ [] ∧ results.length ≤ 5 * failCount results) ∧
    ((get_quality_summary results).critical_failure = some true ↔
      results ≠ [] ∧ 5 * passCount results < 4 * results.length) := by
  constructor
  · by_cases hemp : results = []
    · subst hemp
      simp [trigger_fallback_if_needed]
    · have hlen : 0 < results.length := List.length_pos.mpr hemp
      simp only [trigger_fallback_if_needed]
      rw [if_neg (by simpa [List.isEmpty_iff] using hemp)]
      by_cases hrate :
          ((failCount results : ℚ)) / (results.length : ℚ) < FB_CRITICAL_FAILURE_THRESHOLD
      · rw [if_pos (by simpa [failCount] using hrate)]
        have h5 : 5 * failCount results < results.length :=
          (fail_rate_lt_iff _ _ hlen).mp
            (by simpa [FB_CRITICAL_FAILURE_THRESHOLD] using hrate)
        simp only [Bool.false_eq_true, false_iff]
        intro hcon
        omega
      · rw [if_neg (by simpa [failCount] using hrate)]
        have h5 : ¬ 5 * failCount results < results.length := fun hcon =>
          hrate (by
            rw [FB_CRITICAL_FAILURE_THRESHOLD]
            exact (fail_rate_lt_iff _ _ hlen).mpr hcon)
        rcases hfetch : fetch_from_fallback
            { st with
              was_triggered := true
              fallback_events := st.fallback_events ++
                [.triggered "Quality failure rate exceeds threshold" results.length
                  (List.filter (fun r => r.status == QualityStatus.fail) results).length
                  (roundHundredths
                    ((List.filter (fun r => r.status == QualityStatus.fail) results).length /
                      (results.length : ℚ)))] } net with ⟨st2, data⟩
        cases data <;> simp_all
  · cases results with
    | nil => simp [get_quality_summary]
    | cons a l =>
      have hlen : 0 < (a :: l).length := by simp
      simp only [get_quality_summary]
      rw [if_neg (by simp)]
      simp only [Option.some.injEq, decide_eq_true_eq]
      rw [show (1 : ℚ) - QC_CRITICAL_FAILURE_THRESHOLD = 1 - 1 / 5 from by
        rw [QC_CRITICAL_FAILURE_THRESHOLD]]
      constructor
      · intro h
        exact ⟨by simp, by
          have := (pass_rate_lt_iff _ _ hlen).mp (by simpa [passCount] using h)
          simpa [passCount] using this⟩
      · intro h
        simpa [passCount] using (pass_rate_lt_iff (passCount (a :: l)) _ hlen).mpr h.2

/-- Witness for C2 (amended): on the boundary batch the fetch is
performed. -/
theorem c2_trigger_vs_summary_witness :
    (trigger_fallback_if_needed {} (.ok [mdGood]) boundaryBatch).2.2 = true :=
  (c2_trigger_vs_summary boundaryBatch {} (.ok [mdGood])).1.mpr
    ⟨by simp [boundaryBatch], by decide⟩

/-- `fetch_from_fallback` touches only `status`, `error_cause` and
`error_details`: it never alters the cascading-failure flag. -/
theorem fetch_preserves_cascading (s : FallbackState) (net : FetchOutcome) :
    (fetch_from_fallback s net).1.cascading_failure = s.cascading_failure := by
  cases net with
  | ok ms =>
    by_cases h : ms.isEmpty <;> simp [fetch_from_fallback, h]
  | timeout msg => simp [fetch_from_fallback]
  | httpError code => simp [fetch_from_fallback]
  | requestError msg => simp [fetch_from_fallback]
  | otherError msg => simp [fetch_from_fallback]

/-- The three possible shapes of a `trigger_fallback_if_needed` call:
no fire (state's flag untouched), fire with data (flag untouched), or
fire without data (flag set). -/
theorem trigger_cases (st : FallbackState) (net : FetchOutcome)
    (results : List QualityResult) :
    (∃ st', trigger_fallback_if_needed st net results = (st', Option.none, false) ∧
      st'.cascading_failure = st.cascading_failure) ∨
    (∃ st' data, trigger_fallback_if_needed st net results = (st', some data, true) ∧
      st'.cascading_failure = st.cascading_failure) ∨
    (∃ st', trigger_fallback_if_needed st net results = (st', Option.none, true) ∧
      st'.cascading_failure = true) := by
  simp only [trigger_fallback_if_needed]
  split
  · exact Or.inl ⟨st, rfl, rfl⟩
  · split
    · exact Or.inl ⟨_, rfl, rfl⟩
    · split
      · exact Or.inr (Or.inr ⟨_, rfl, rfl⟩)
      · refine Or.inr (Or.inl ⟨_, _, rfl, ?_⟩)
        simp [fetch_preserves_cascading]

/-- Claim C3 counterexample: a batch of one warning-status record has
`criticalFailure = true` and the fallback produces no data (it is never
even triggered, the recomputed fail rate being 0), so the guard blocks
with `degraded-no-bet` — but the report's `cascading_failure` flag
stays `false`, contradicting the claim's third conjunct. -/
theorem c3_counterexample :
    (get_quality_summary warnBatch).critical_failure = some true ∧
    (trigger_fallback_if_needed {} (.timeout "t") warnBatch).2.1 = Option.none ∧
    (trigger_fallback_if_needed {} (.timeout "t") warnBatch).2.2 = false ∧
    (evaluate_run_status {} (get_quality_summary warnBatch) Option.none).1.mode =
      DegradedMode.degraded_no_bet ∧
    (evaluate_run_status {} (get_quality_summary warnBatch) Option.none).1.allow_betting =
      false ∧
    (get_fallback_report
      (trigger_fallback_if_needed {} (.timeout "t") warnBatch).1).cascading_failure =
      false := by
  have h1 : (get_quality_summary warnBatch).critical_failure = some true := by
    simp [get_quality_summary, warnBatch, qrWarn, QC_CRITICAL_FAILURE_THRESHOLD]
    norm_num
  have h2 : (trigger_fallback_if_needed {} (.timeout "t") warnBatch) =
      ({}, Option.none, false) := by
    simp [trigger_fallback_if_needed, warnBatch, qrWarn, FB_CRITICAL_FAILURE_THRESHOLD]
  refine ⟨h1, by rw [h2], by rw [h2], ?_, ?_, by rw [h2]; rfl⟩
  · simp [evaluate_run_status, h1]
  · simp [evaluate_run_status, h1]

/-- Claim C3 (amended): when `criticalFailure` is true and the fallback
outcome is nil the guard returns `degraded-no-bet` with
`allow_betting = false`; the report's `cascading_failure` flag is true
exactly when the cascade actually fired and its fetch produced no data,
and it keeps its previous value (false for a fresh pipeline) when the
cascade never fired — in particular a critical batch that does not trip
the cascade's own fail-rate test leaves the flag false. -/
theorem c3_no_bet_and_cascading_flag (g : NoBetGuard) (qs : QualitySummaryDict)
    (st : FallbackState) (net : FetchOutcome) (results : List QualityResult) :
    (qs.critical_failure.getD false = true →
      (evaluate_run_status g qs Option.none).1.mode = DegradedMode.degraded_no_bet ∧
      (evaluate_run_status g qs Option.none).1.allow_betting = false) ∧
    ((trigger_fallback_if_needed st net results).2.2 = true →
      (trigger_fallback_if_needed st net results).2.1 = Option.none →
      (get_fallback_report
        (trigger_fallback_if_needed st net results).1).cascading_failure = true) ∧
    ((trigger_fallback_if_needed st net results).2.2 = false →
      (get_fallback_report
        (trigger_fallback_if_needed st net results).1).cascading_failure =
        st.cascading_failure) := by
  refine ⟨fun hcf => by simp [evaluate_run_status, hcf], fun hinv hdata => ?_,
    fun hninv => ?_⟩
  · rcases trigger_cases st net results with ⟨st', heq, hc⟩ | ⟨st', d, heq, hc⟩ |
      ⟨st', heq, hc⟩
    · rw [heq] at hinv; simp at hinv
    · rw [heq] at hdata; simp at hdata
    · rw [heq]; simpa [get_fallback_report] using hc
  · rcases trigger_cases st net results with ⟨st', heq, hc⟩ | ⟨st', d, heq, hc⟩ |
      ⟨st', heq, hc⟩
    · rw [heq]; simpa [get_fallback_report] using hc
    · rw [heq] at hninv; simp at hninv
    · rw [heq] at hninv; simp at hninv

/-- Witness for C3 (amended): a critical summary with nil fallback is
blocked, and a one-failure batch with a timing-out secondary source
fires the cascade and sets the flag. -/
theorem c3_no_bet_and_cascading_flag_witness :
    ((evaluate_run_status {} { critical_failure := some true } Option.none).1.mode =
        DegradedMode.degraded_no_bet ∧
     (evaluate_run_status {} { critical_failure := some true } Option.none).1.allow_betting =
        false) ∧
    (get_fallback_report
      (trigger_fallback_if_needed {} (.timeout "t") [qrFail]).1).cascading_failure = true := by
  have hfire : trigger_fallback_if_needed {} (.timeout "t") [qrFail] =
      (({ was_triggered := true
          status := .failed
          error_cause := some "FALLBACK_TIMEOUT"
          error_details := some ("Fallback API timeout: " ++ "t")
          cascading_failure := true
          fallback_events :=
            [.triggered "Quality failure rate exceeds threshold" 1 1 (roundHundredths (1 / 1)),
             .failed "FALLBACK_TIMEOUT" (some ("Fallback API timeout: " ++ "t")) true] } :
        FallbackState), Option.none, true) := by
    simp [trigger_fallback_if_needed, qrFail, FB_CRITICAL_FAILURE_THRESHOLD,
      fetch_from_fallback]
    norm_num
  exact ⟨(c3_no_bet_and_cascading_flag {} { critical_failure := some true } {}
      (.timeout "t") [qrFail]).1 rfl,
    (c3_no_bet_and_cascading_flag {} { critical_failure := some true } {}
      (.timeout "t") [qrFail]).2.1 (by rw [hfire]) (by rw [hfire])⟩

/-- Decomposition of `validate_match`'s rule loop: the accumulated
errors, warnings and rule results are the concatenations of each rule's
individual contribution. -/
theorem vm_fold_eq (md : Md) :
    ∀ (rules : List PyRule) (e w : List String) (rrs : List RuleResult),
      rules.foldl (vmStep md) (e, w, rrs) =
        (e ++ (rules.map (errOf md)).flatten,
         w ++ (rules.map (warnOf md)).flatten,
         rrs ++ rules.filterMap (okOf md))
  | [], e, w, rrs => by simp
  | r :: rules, e, w, rrs => by
    simp only [List.foldl_cons, List.map_cons, List.flatten_cons, List.filterMap_cons]
    cases hc : r.check md with
    | error err =>
      simp [vmStep, hc, errOf, warnOf, okOf, Except.toOption, vm_fold_eq md rules,
        List.append_assoc]
    | ok res =>
      by_cases hp : res.passed
      · simp [vmStep, hc, hp, errOf, warnOf, okOf, Except.toOption,
          vm_fold_eq md rules, List.append_assoc]
      · by_cases hs : res.severity == "error"
        · simp [vmStep, hc, hp, hs, errOf, warnOf, okOf, Except.toOption,
            vm_fold_eq md rules, List.append_assoc]
        · simp [vmStep, hc, hp, hs, errOf, warnOf, okOf, Except.toOption,
            vm_fold_eq md rules, List.append_assoc]

/-- The per-record outcome lists of `validate_match` in closed form. -/
theorem validate_match_parts (rules : List PyRule) (md : Md) :
    (validate_match rules md).errors = (rules.map (errOf md)).flatten ∧
    (validate_match rules md).warnings = (rules.map (warnOf md)).flatten ∧
    (validate_match rules md).rule_results = rules.filterMap (okOf md) := by
  simp [validate_match, vm_fold_eq md rules [] [] []]

/-- Membership in the collected rule results is exactly "some rule
returned this outcome". -/
theorem mem_rule_results (rules : List PyRule) (md : Md) (rr : RuleResult) :
    rr ∈ (validate_match rules md).rule_results ↔
      ∃ r ∈ rules, r.check md = Except.ok rr := by
  rw [(validate_match_parts rules md).2.2, List.mem_filterMap]
  constructor
  · rintro ⟨r, hr, hok⟩
    refine ⟨r, hr, ?_⟩
    unfold okOf at hok
    cases hc : r.check md with
    | error e => rw [hc] at hok; simp [Except.toOption] at hok
    | ok res =>
      rw [hc] at hok
      simp [Except.toOption] at hok
      rw [hok]
  · rintro ⟨r, hr, hok⟩
    exact ⟨r, hr, by simp [okOf, hok, Except.toOption]⟩

/-- The error list is nonempty exactly when some rule produced a
failing error-severity outcome or some rule raised. -/
theorem errors_ne_nil_iff (rules : List PyRule) (md : Md) :
    (validate_match rules md).errors ≠ [] ↔
      (∃ rr ∈ (validate_match rules md).rule_results,
        rr.passed = false ∧ rr.severity = "error") ∨
      ∃ r ∈ rules, ∃ e, r.check md = Except.error e := by
  rw [(validate_match_parts rules md).1]
  constructor
  · intro hne
    have : ∃ l ∈ rules.map (errOf md), l ≠ [] := by
      by_contra hall
      push_neg at hall
      exact hne (List.flatten_eq_nil_iff.mpr hall)
    rcases this with ⟨l, hl, hlne⟩
    rcases List.mem_map.mp hl with ⟨r, hr, rfl⟩
    cases hc : r.check md with
    | error e => exact Or.inr ⟨r, hr, e, hc⟩
    | ok res =>
      simp only [errOf, hc] at hlne
      by_cases hcond : !res.passed && res.severity == "error"
      · refine Or.inl ⟨res, (mem_rule_results rules md res).mpr ⟨r, hr, hc⟩, ?_⟩
        simp only [Bool.and_eq_true, Bool.not_eq_true', beq_iff_eq] at hcond
        exact hcond
      · rw [if_neg hcond] at hlne
        exact absurd rfl hlne
  · rintro (⟨rr, hmem, hfail, hsev⟩ | ⟨r, hr, e, hc⟩)
    · rcases (mem_rule_results rules md rr).mp hmem with ⟨r, hr, hres⟩
      intro hnil
      have hin : errOf md r ∈ rules.map (errOf md) := List.mem_map.mpr ⟨r, hr, rfl⟩
      have : errOf md r = [] := (List.flatten_eq_nil_iff.mp hnil) _ hin
      simp only [errOf, hres] at this
      rw [if_pos (by simp [hfail, hsev])] at this
      exact absurd this (by simp)
    · intro hnil
      have hin : errOf md r ∈ rules.map (errOf md) := List.mem_map.mpr ⟨r, hr, rfl⟩
      have : errOf md r = [] := (List.flatten_eq_nil_iff.mp hnil) _ hin
      simp only [errOf, hc] at this
      exact absurd this (by simp)

/-- The warning list is nonempty exactly when some rule produced a
failing outcome of non-error severity (a raising rule contributes no
warning). -/
theorem warnings_ne_nil_iff (rules : List PyRule) (md : Md) :
    (validate_match rules md).warnings ≠ [] ↔
      ∃ rr ∈ (validate_match rules md).rule_results,
        rr.passed = false ∧ rr.severity ≠ "error" := by
  rw [(validate_match_parts rules md).2.1]
  constructor
  · intro hne
    have : ∃ l ∈ rules.map (warnOf md), l ≠ [] := by
      by_contra hall
      push_neg at hall
      exact hne (List.flatten_eq_nil_iff.mpr hall)
    rcases this with ⟨l, hl, hlne⟩
    rcases List.mem_map.mp hl with ⟨r, hr, rfl⟩
    cases hc : r.check md with
    | error e =>
      simp only [warnOf, hc] at hlne
      exact absurd rfl hlne
    | ok res =>
      simp only [warnOf, hc] at hlne
      by_cases hcond : !res.passed && !(res.severity == "error")
      · refine ⟨res, (mem_rule_results rules md res).mpr ⟨r, hr, hc⟩, ?_⟩
        simp only [Bool.and_eq_true, Bool.not_eq_true', beq_iff_eq,
          Bool.not_eq_true] at hcond
        exact ⟨hcond.1, by simpa using hcond.2⟩
      · rw [if_neg hcond] at hlne
        exact absurd rfl hlne
  · rintro ⟨rr, hmem, hfail, hsev⟩
    rcases (mem_rule_results rules md rr).mp hmem with ⟨r, hr, hres⟩
    intro hnil
    have hin : warnOf md r ∈ rules.map (warnOf md) := List.mem_map.mpr ⟨r, hr, rfl⟩
    have : warnOf md r = [] := (List.flatten_eq_nil_iff.mp hnil) _ hin
    simp only [warnOf, hres] at this
    rw [if_pos (by simp [hfail, hsev])] at this
    exact absurd this (by simp)

/-- The status field is computed from emptiness of the two lists. -/
theorem validate_match_status_def (rules : List PyRule) (md : Md) :
    (validate_match rules md).status =
      (if (validate_match rules md).errors ≠ [] then QualityStatus.fail
       else if (validate_match rules md).warnings ≠ [] then QualityStatus.warning
       else QualityStatus.pass) := by
  show (validate_match rules md).status = _
  rw [validate_match]
  rcases h : rules.foldl (vmStep md) ([], [], []) with ⟨e2, w2, r2⟩
  by_cases he : e2.isEmpty <;> by_cases hw : w2.isEmpty <;>
    simp_all [List.isEmpty_iff, validate_match, h]

/-- Claim C5 counterexample: on a record whose required fields are all
present but whose `home_team.id` is `None`, completeness and validity
pass and consistency raises, so every collected rule outcome passed —
no error- or warning-severity outcome failed — yet the status is
`fail`, not `pass`: the status is not a function of the rule outcomes
alone. -/
theorem c5_counterexample :
    ((validate_match sampleRules mdBadId).rule_results.all fun rr => rr.passed) = true ∧
    (validate_match sampleRules mdBadId).rule_results.map (fun rr => rr.rule_name) =
      ["completeness", "validity"] ∧
    (validate_match sampleRules mdBadId).errors =
      ["consistency_error: AttributeError: object has no attribute lower"] ∧
    (validate_match sampleRules mdBadId).status = QualityStatus.fail :=
  ⟨rfl, rfl, rfl, rfl⟩

/-- Claim C5 (amended): provided every failing outcome carries severity
`error` or `warning`, the per-record status is a total function of the
rule outcomes together with the rule exceptions: `fail` iff some
error-severity outcome failed or some rule raised; otherwise `warning`
iff some warning-severity outcome failed; otherwise `pass` (equivalent
to: no rule raised and every collected outcome passed). -/
theorem c5_status_derivation (rules : List PyRule) (md : Md)
    (hsev : ∀ rr ∈ (validate_match rules md).rule_results, rr.passed = false →
      rr.severity = "error" ∨ rr.severity = "warning") :
    ((validate_match rules md).status = QualityStatus.fail ↔
      (∃ rr ∈ (validate_match rules md).rule_results,
        rr.passed = false ∧ rr.severity = "error") ∨
      ∃ r ∈ rules, ∃ e, r.check md = Except.error e) ∧
    ((validate_match rules md).status = QualityStatus.warning ↔
      ¬((∃ rr ∈ (validate_match rules md).rule_results,
          rr.passed = false ∧ rr.severity = "error") ∨
        ∃ r ∈ rules, ∃ e, r.check md = Except.error e) ∧
      ∃ rr ∈ (validate_match rules md).rule_results,
        rr.passed = false ∧ rr.severity = "warning") ∧
    ((validate_match rules md).status = QualityStatus.pass ↔
      (∀ r ∈ rules, ∃ res, r.check md = Except.ok res) ∧
      ∀ rr ∈ (validate_match rules md).rule_results, rr.passed = true) := by
  have herr := errors_ne_nil_iff rules md
  have hwarn := warnings_ne_nil_iff rules md
  have hstat := validate_match_status_def rules md
  by_cases he : (validate_match rules md).errors ≠ []
  · rw [hstat, if_pos he]
    refine ⟨by simpa using herr.mp he, ?_, ?_⟩
    · simp only [show QualityStatus.fail = QualityStatus.warning ↔ False by simp]
      constructor
      · exact False.elim
      · rintro ⟨hno, _⟩
        exact absurd (herr.mp he) hno
    · simp only [show QualityStatus.fail = QualityStatus.pass ↔ False by simp]
      constructor
      · exact False.elim
      · rintro ⟨hnoraise, hall⟩
        rcases herr.mp he with ⟨rr, hmem, hfail, _⟩ | ⟨r, hr, e, hc⟩
        · rw [hall rr hmem] at hfail
          exact absurd hfail (by simp)
        · rcases hnoraise r hr with ⟨res, hres⟩
          rw [hres] at hc
          exact absurd hc (by simp)
  · push_neg at he
    have hnofail : ¬((∃ rr ∈ (validate_match rules md).rule_results,
        rr.passed = false ∧ rr.severity = "error") ∨
        ∃ r ∈ rules, ∃ e, r.check md = Except.error e) :=
      fun hc => (herr.mpr hc) he
    have hnoerr : ¬ ∃ rr ∈ (validate_match rules md).rule_results,
        rr.passed = false ∧ rr.severity = "error" := fun hc => hnofail (Or.inl hc)
    have hnoraise : ∀ r ∈ rules, ∃ res, r.check md = Except.ok res := by
      intro r hr
      cases hc : r.check md with
      | error e => exact absurd (Or.inr ⟨r, hr, e, hc⟩) hnofail
      | ok res => exact ⟨res, rfl⟩
    by_cases hw : (validate_match rules md).warnings ≠ []
    · rw [hstat, if_neg (by simpa using he), if_pos hw]
      rcases hwarn.mp hw with ⟨rr, hmem, hfail, hne⟩
      have hrrw : rr.severity = "warning" :=
        (hsev rr hmem hfail).resolve_left hne
      refine ⟨by simp [hnofail], ?_, ?_⟩
      · simp only [show QualityStatus.warning = QualityStatus.warning ↔ True by simp,
          true_iff]
        exact ⟨hnofail, rr, hmem, hfail, hrrw⟩
      · simp only [show QualityStatus.warning = QualityStatus.pass ↔ False by simp]
        constructor
        · exact False.elim
        · rintro ⟨_, hall⟩
          rw [hall rr hmem] at hfail
          exact absurd hfail (by simp)
    · push_neg at hw
      have hnowarn : ¬ ∃ rr ∈ (validate_match rules md).rule_results,
          rr.passed = false ∧ rr.severity ≠ "error" := fun hc => (hwarn.mpr hc) hw
      rw [hstat, if_neg (by simpa using he), if_neg (by simpa using hw)]
      refine ⟨by simp [hnofail], ?_, ?_⟩
      · simp only [show QualityStatus.pass = QualityStatus.warning ↔ False by simp]
        constructor
        · exact False.elim
        · rintro ⟨_, rr, hmem, hfail, hrrw⟩
          exact hnowarn ⟨rr, hmem, hfail, by simp [hrrw]⟩
      · simp only [show QualityStatus.pass = QualityStatus.pass ↔ True by simp, true_iff]
        refine ⟨hnoraise, ?_⟩
        intro rr hmem
        by_contra hfail
        have hfail' : rr.passed = false := by simpa using hfail
        rcases hsev rr hmem hfail' with hs | hs
        · exact hnoerr ⟨rr, hmem, hfail', hs⟩
        · exact hnowarn ⟨rr, hmem, hfail', by simp [hs]⟩

/-- Witness for C5 (amended): on a fully valid record the default
(completeness, validity, consistency) rules produce status `pass`. -/
theorem c5_status_derivation_witness :
    (validate_match sampleRules mdGood).status = QualityStatus.pass := by
  have hok : ∀ r ∈ sampleRules, ∃ res, r.check mdGood = Except.ok res := by
    intro r hr
    simp only [sampleRules, List.mem_cons, List.not_mem_nil, or_false] at hr
    rcases hr with rfl | rfl | rfl
    · exact ⟨_, rfl⟩
    · exact ⟨_, rfl⟩
    · exact ⟨_, rfl⟩
  have hall : ((validate_match sampleRules mdGood).rule_results.all
      fun rr => rr.passed) = true := rfl
  have hallmem := List.all_eq_true.mp hall
  exact (c5_status_derivation sampleRules mdGood
    (fun rr hmem hfail => absurd (by simpa using hallmem rr hmem) (by simp [hfail]))).2.2.mpr
    ⟨hok, fun rr hmem => by simpa using hallmem rr hmem⟩

/-- Claim C6 counterexample: on a record whose consistency rule raises,
the exception is recorded as the error string `consistency_error: ...`
and the later completeness rule still runs, but no synthetic
`RuleOutcome` is created: the collected rule results are exactly the
one outcome of the completeness rule. -/
theorem c6_counterexample :
    (validate_match rulesExc mdExc).errors =
      ["consistency_error: AttributeError: object has no attribute lower"] ∧
    (validate_match rulesExc mdExc).status = QualityStatus.fail ∧
    (validate_match rulesExc mdExc).rule_results.map (fun rr => rr.rule_name) =
      ["completeness"] :=
  ⟨rfl, rfl, rfl⟩

/-- Claim C6 (amended): an exception raised by one rule is caught and
recorded as the error string `<rule>_error: <msg>` in the record's
error list (the raising rule contributes no RuleOutcome to
`rule_results`), the record's status is `fail`, and evaluation of all
remaining rules and of every other record of the batch still takes
place. -/
theorem c6_exception_handling (rules1 rules2 : List PyRule) (rule : PyRule)
    (md : Md) (e : String) (hraise : rule.check md = Except.error e) :
    (rule.name ++ "_error: " ++ e) ∈
      (validate_match (rules1 ++ rule :: rules2) md).errors ∧
    (validate_match (rules1 ++ rule :: rules2) md).rule_results =
      (validate_match (rules1 ++ rules2) md).rule_results ∧
    (validate_match (rules1 ++ rule :: rules2) md).status = QualityStatus.fail ∧
    ∀ ms : List Md, validate_batch (rules1 ++ rule :: rules2) ms =
      ms.map (validate_match (rules1 ++ rule :: rules2)) := by
  have hmem : (rule.name ++ "_error: " ++ e) ∈
      (validate_match (rules1 ++ rule :: rules2) md).errors := by
    rw [(validate_match_parts (rules1 ++ rule :: rules2) md).1]
    refine List.mem_flatten.mpr ⟨errOf md rule, List.mem_map.mpr ⟨rule, by simp, rfl⟩, ?_⟩
    simp [errOf, hraise]
  refine ⟨hmem, ?_, ?_, fun ms => rfl⟩
  · rw [(validate_match_parts (rules1 ++ rule :: rules2) md).2.2,
      (validate_match_parts (rules1 ++ rules2) md).2.2]
    simp [List.filterMap_append, List.filterMap_cons, okOf, hraise, Except.toOption]
  · rw [validate_match_status_def, if_pos (List.ne_nil_of_mem hmem)]

/-- Witness for C6 (amended): the consistency rule raises on `mdExc`
and the remaining completeness rule still runs. -/
theorem c6_exception_handling_witness :
    ("consistency" ++ "_error: " ++ "AttributeError: object has no attribute lower") ∈
      (validate_match ([] ++ ({ name := "consistency", check := check_consistency } : PyRule) ::
        [({ name := "completeness",
            check := fun md => .ok (check_completeness ["external_id"] md) } : PyRule)])
        mdExc).errors ∧
    (validate_match ([] ++ ({ name := "consistency", check := check_consistency } : PyRule) ::
        [({ name := "completeness",
            check := fun md => .ok (check_completeness ["external_id"] md) } : PyRule)])
        mdExc).status = QualityStatus.fail :=
  ⟨(c6_exception_handling [] _ _ mdExc "AttributeError: object has no attribute lower" rfl).1,
   (c6_exception_handling [] _ _ mdExc "AttributeError: object has no attribute lower" rfl).2.2.1⟩

/-- Claim C7, evaluated on the code: a present but unparseable
scheduled-time string leaves the validity rule passing with severity
`info` (the parse is never performed, so the claimed error-severity
failure does not happen), while the score-field half of the claim does
hold: a negative or non-numeric score fails with severity `error`. -/
theorem c7_validity_code_eval :
    (check_validity mdBadDate).passed = true ∧
    (check_validity mdBadDate).severity = "info" ∧
    (check_validity [("home_score", .int (-5))]).passed = false ∧
    (check_validity [("home_score", .int (-5))]).severity = "error" ∧
    (check_validity [("home_score", .str "not-a-number")]).passed = false ∧
    (check_validity [("home_score", .str "not-a-number")]).severity = "error" :=
  ⟨rfl, rfl, rfl, rfl, rfl, rfl⟩
